import Mathlib

/-!
Verification development for the Bedrock proxy gateway.

Shallow embedding of the core components of the repository:
the markup-safe XML tag buffer (`pkg/xml_buffer.go`), the streaming
response adapter (`pkg/bedrock.go`, `handleBedrockStreamConverse`),
the pricing catalog and cost functions (`pkg/metrics/cost.go`), the
post-stream metrics processing (`processMetrics`), the quota
middleware, the authentication rate limiter and middleware
(`pkg/auth/rate_limiter.go`, `pkg/auth/middleware.go`), and the
store operations `ResetDailyCounters` and `ValidateToken`
(`pkg/database/database.go`).

Strings are modelled as lists of characters (Go indexes bytes; all
inputs of interest here are ASCII), time instants and durations as
integers, and Go `float64` amounts as rationals with exact decimal
literals.
-/

namespace BedrockProxy

/-! ### XMLTagBuffer — `pkg/xml_buffer.go` -/

/-- State of the markup-safe buffer (`XMLTagBuffer` in `pkg/xml_buffer.go`):
the retained bytes and the configured cap `maxBufferSize`. -/
structure XMLTagBuffer where
  buffer : List Char
  maxBufferSize : Nat
deriving DecidableEq

/-- `NewXMLTagBuffer` from `pkg/xml_buffer.go`: empty buffer with the given cap. -/
def NewXMLTagBuffer (maxBufferSize : Nat) : XMLTagBuffer :=
  { buffer := [], maxBufferSize := maxBufferSize }

/-- Index of the last occurrence of `c` in `l`, mirroring `strings.LastIndex`
(`none` models the Go return value `-1`). -/
def lastIndexOf (l : List Char) (c : Char) : Option Nat :=
  match l with
  | [] => none
  | a :: rest =>
    match lastIndexOf rest c with
    | some i => some (i + 1)
    | none => if a = c then some 0 else none

/-- The character class tested on the byte following `<` in
`XMLTagBuffer.ProcessChunk`: ASCII letter, `/`, `!` or `_`. -/
def isLikelyTag (c : Char) : Bool :=
  decide (('a' ≤ c ∧ c ≤ 'z') ∨ ('A' ≤ c ∧ c ≤ 'Z') ∨ c = '/' ∨ c = '!' ∨ c = '_')

/-- `XMLTagBuffer.ProcessChunk` from `pkg/xml_buffer.go` lines 31-107.
Returns the text to send and the updated buffer state. -/
def ProcessChunk (b : XMLTagBuffer) (chunk : List Char) : List Char × XMLTagBuffer :=
  let fullText := b.buffer ++ chunk
  if fullText.length = 0 then
    ([], { b with buffer := [] })
  else
    match lastIndexOf fullText '<' with
    | none => (fullText, { b with buffer := [] })
    | some lastOpenBracket =>
      let textAfterBracket := fullText.drop lastOpenBracket
      if textAfterBracket.contains '>' then
        (fullText, { b with buffer := [] })
      else
        let distanceFromEnd := fullText.length - lastOpenBracket
        if distanceFromEnd ≤ b.maxBufferSize then
          match textAfterBracket with
          | _ :: firstChar :: _ =>
            if isLikelyTag firstChar then
              (fullText.take lastOpenBracket, { b with buffer := textAfterBracket })
            else
              (fullText, { b with buffer := [] })
          | _ =>
            (fullText.take lastOpenBracket, { b with buffer := textAfterBracket })
        else
          (fullText, { b with buffer := [] })

/-- `XMLTagBuffer.Flush` from `pkg/xml_buffer.go` lines 110-120: return the
retained content and clear the buffer. -/
def Flush (b : XMLTagBuffer) : List Char × XMLTagBuffer :=
  (b.buffer, { b with buffer := [] })

/-- `XMLTagBuffer.HasBufferedContent` from `pkg/xml_buffer.go`. -/
def HasBufferedContent (b : XMLTagBuffer) : Bool :=
  0 < b.buffer.length

/-- Run `ProcessChunk` over a sequence of chunks, collecting everything emitted
and the final buffer state. -/
def runChunks (b : XMLTagBuffer) : List (List Char) → List Char × XMLTagBuffer
  | [] => ([], b)
  | c :: cs =>
    let r := ProcessChunk b c
    let rest := runChunks r.2 cs
    (r.1 ++ rest.1, rest.2)

theorem ProcessChunk_partition (b : XMLTagBuffer) (chunk : List Char) :
    (ProcessChunk b chunk).1 ++ (ProcessChunk b chunk).2.buffer = b.buffer ++ chunk := by
  unfold ProcessChunk
  dsimp only
  split
  · next h =>
    simp [List.length_eq_zero] at h
    simp [h]
  · split
    · simp
    · split
      · simp
      · split
        · split
          · split
            · simp [List.take_append_drop]
            · simp
          · simp [List.take_append_drop]
        · simp

theorem ProcessChunk_cap (b : XMLTagBuffer) (chunk : List Char) :
    (ProcessChunk b chunk).2.maxBufferSize = b.maxBufferSize := by
  unfold ProcessChunk
  dsimp only
  split
  · rfl
  · split
    · rfl
    · split
      · rfl
      · split
        · split
          · split <;> rfl
          · rfl
        · rfl

theorem runChunks_partition (chunks : List (List Char)) (b : XMLTagBuffer) :
    (runChunks b chunks).1 ++ (runChunks b chunks).2.buffer = b.buffer ++ chunks.flatten := by
  induction chunks generalizing b with
  | nil => simp [runChunks]
  | cons c cs ih =>
    simp only [runChunks, List.flatten_cons]
    rw [List.append_assoc, ih, ← List.append_assoc, ProcessChunk_partition, List.append_assoc]

/-- C3: for every buffer cap and every input sequence split into chunks, the
concatenation of all strings returned by `ProcessChunk` on the successive
chunks, followed by the string returned by the final `Flush`, equals the
concatenation of the chunks, and after `Flush` the internal buffer is empty. -/
theorem C3_buffer_concat_identity (cap : Nat) (chunks : List (List Char)) :
    (runChunks (NewXMLTagBuffer cap) chunks).1 ++ (Flush (runChunks (NewXMLTagBuffer cap) chunks).2).1
      = chunks.flatten
    ∧ (Flush (runChunks (NewXMLTagBuffer cap) chunks).2).2.buffer = [] := by
  refine ⟨?_, rfl⟩
  have h := runChunks_partition chunks (NewXMLTagBuffer cap)
  simpa [NewXMLTagBuffer, Flush] using h

/-- C4: when the tail after the last unclosed `<` fits within the cap and the
character following `<` is a letter, underscore, `/` or `!`, `ProcessChunk`
emits only the prefix before that `<` and retains the tail in the buffer; in
particular, with cap 100 the chunks `"Create file <write_fi"` and
`"le>contents"` produce the emissions `"Create file "` and
`"<write_file>contents"`, never a partial tag. -/
theorem C4_partial_tag_never_emitted (b : XMLTagBuffer) (chunk : List Char)
    (lt : Nat) (c : Char) (rest : List Char)
    (h1 : lastIndexOf (b.buffer ++ chunk) '<' = some lt)
    (h2 : (b.buffer ++ chunk).drop lt = '<' :: c :: rest)
    (h3 : ((b.buffer ++ chunk).drop lt).contains '>' = false)
    (h4 : (b.buffer ++ chunk).length - lt ≤ b.maxBufferSize)
    (h5 : isLikelyTag c = true) :
    ProcessChunk b chunk
      = ((b.buffer ++ chunk).take lt, { b with buffer := (b.buffer ++ chunk).drop lt })
    ∧ ProcessChunk (NewXMLTagBuffer 100) "Create file <write_fi".toList
      = ("Create file ".toList, ⟨"<write_fi".toList, 100⟩)
    ∧ ProcessChunk ⟨"<write_fi".toList, 100⟩ "le>contents".toList
      = ("<write_file>contents".toList, ⟨[], 100⟩) := by
  refine ⟨?_, by decide, by decide⟩
  have hne : ¬ (b.buffer ++ chunk).length = 0 := by
    intro h0
    rw [List.length_eq_zero] at h0
    rw [h0] at h2
    simp at h2
  have hcont : ¬ (((b.buffer ++ chunk).drop lt).contains '>' = true) := by
    intro hx
    rw [h3] at hx
    exact Bool.false_ne_true hx
  unfold ProcessChunk
  dsimp only
  rw [if_neg hne, h1]
  dsimp only
  rw [if_neg hcont, if_pos h4, h2]
  dsimp only
  rw [if_pos h5, ← h2]

/-- Witness for C4: the general retention rule applied to the concrete first
chunk of the scenario. -/
theorem C4_partial_tag_never_emitted_witness :
    ProcessChunk (NewXMLTagBuffer 100) "Create file <write_fi".toList
      = (("Create file <write_fi".toList).take 12,
         { NewXMLTagBuffer 100 with buffer := ("Create file <write_fi".toList).drop 12 }) :=
  (C4_partial_tag_never_emitted (NewXMLTagBuffer 100) "Create file <write_fi".toList 12 'w'
    "rite_fi".toList (by decide) (by decide) (by decide) (by decide) (by decide)).1

/-! ### Streaming adapter — `handleBedrockStreamConverse`, `pkg/bedrock.go` lines 663-817 -/

/-- Usage counters carried by a provider `Metadata` event (`types.TokenUsage`):
each field is optional, mirroring the nil-checked pointers in the Go code. -/
structure UsageCounters where
  inputTokens : Option Int
  outputTokens : Option Int
  cacheReadInputTokens : Option Int
  cacheWriteInputTokens : Option Int
deriving DecidableEq

/-- Provider-native stream events consumed by the adapter
(`types.ConverseStreamOutputMember...`). `otherEvent` stands for any event kind
the Go type switch ignores, including a `ContentBlockDelta` whose delta is nil
or not a text delta. -/
inductive ConverseStreamEvent where
  | messageStart
  | contentBlockStart
  | contentBlockDelta (text : List Char)
  | contentBlockStop
  | metadata (usage : Option UsageCounters)
  | messageStop (stopReason : List Char)
  | otherEvent
deriving DecidableEq

/-- Outbound SSE events written by the adapter. Counter arguments follow the
order in which the Go format strings interpolate them: input, output,
cache-creation (write), cache-read. -/
inductive SSEEvent where
  | messageStart (input output cacheWrite cacheRead : Int)
  | contentBlockStart
  | contentBlockDelta (text : List Char)
  | contentBlockStop
  | ping (input output cacheWrite cacheRead : Int)
  | messageDelta (stopReason : List Char) (output : Int)
  | messageStop
deriving DecidableEq

/-- Local state of `handleBedrockStreamConverse`: captured usage counters, the
two `message_start` flags and the XML tag buffer. -/
structure StreamState where
  inputTokens : Int
  outputTokens : Int
  cacheReadTokens : Int
  cacheWriteTokens : Int
  messageStartReceived : Bool
  messageStartSent : Bool
  xmlBuffer : XMLTagBuffer
deriving DecidableEq

/-- Initial adapter state: zero counters, both flags false, fresh buffer with
the configured cap. -/
def initialStreamState (cap : Nat) : StreamState :=
  { inputTokens := 0, outputTokens := 0, cacheReadTokens := 0, cacheWriteTokens := 0,
    messageStartReceived := false, messageStartSent := false,
    xmlBuffer := NewXMLTagBuffer cap }

/-- One iteration of the event loop of `handleBedrockStreamConverse`
(`pkg/bedrock.go` lines 707-808): the Go `switch` on the incoming provider
event, returning the updated state and the SSE events written. -/
def handleStreamEvent (s : StreamState) : ConverseStreamEvent → StreamState × List SSEEvent
  | .messageStart =>
    ({ s with messageStartReceived := true }, [])
  | .contentBlockStart =>
    (s, [.contentBlockStart])
  | .contentBlockDelta text =>
    let r := ProcessChunk s.xmlBuffer text
    if 0 < r.1.length then
      ({ s with xmlBuffer := r.2 }, [.contentBlockDelta r.1])
    else
      ({ s with xmlBuffer := r.2 }, [])
  | .contentBlockStop =>
    if HasBufferedContent s.xmlBuffer then
      let r := Flush s.xmlBuffer
      if 0 < r.1.length then
        ({ s with xmlBuffer := r.2 }, [.contentBlockDelta r.1, .contentBlockStop])
      else
        ({ s with xmlBuffer := r.2 }, [.contentBlockStop])
    else
      (s, [.contentBlockStop])
  | .metadata none => (s, [])
  | .metadata (some u) =>
    let s1 : StreamState :=
      { s with
        inputTokens := u.inputTokens.getD s.inputTokens,
        outputTokens := u.outputTokens.getD s.outputTokens,
        cacheReadTokens := u.cacheReadInputTokens.getD s.cacheReadTokens,
        cacheWriteTokens := u.cacheWriteInputTokens.getD s.cacheWriteTokens }
    if s1.messageStartReceived && !s1.messageStartSent then
      ({ s1 with messageStartSent := true },
       [.messageStart s1.inputTokens s1.outputTokens s1.cacheWriteTokens s1.cacheReadTokens,
        .ping s1.inputTokens s1.outputTokens s1.cacheWriteTokens s1.cacheReadTokens])
    else
      (s1, [.ping s1.inputTokens s1.outputTokens s1.cacheWriteTokens s1.cacheReadTokens])
  | .messageStop stopReason =>
    let reason := if stopReason.length = 0 then "end_turn".toList else stopReason
    (s, [.messageDelta reason s.outputTokens, .messageStop])
  | .otherEvent => (s, [])

/-- The adapter event loop over the whole provider stream. -/
def runStream (s : StreamState) : List ConverseStreamEvent → StreamState × List SSEEvent
  | [] => (s, [])
  | e :: es =>
    let r := handleStreamEvent s e
    let rest := runStream r.1 es
    (rest.1, r.2 ++ rest.2)

/-- `handleBedrockStreamConverse` as a function from the provider event stream
to the outbound SSE event stream, for a given buffer cap. -/
def handleBedrockStreamConverse (cap : Nat) (events : List ConverseStreamEvent) : List SSEEvent :=
  (runStream (initialStreamState cap) events).2

/-- True exactly on outbound `message_start` events. -/
def isMessageStartEvt : SSEEvent → Bool
  | .messageStart _ _ _ _ => true
  | _ => false

/-- True exactly on outbound `content_block_delta` events. -/
def isContentBlockDeltaEvt : SSEEvent → Bool
  | .contentBlockDelta _ => true
  | _ => false

/-- True exactly on provider `Metadata` events. -/
def isMetadataEvt : ConverseStreamEvent → Bool
  | .metadata _ => true
  | _ => false

/-- Number of `message_start` events in an outbound stream. -/
def msgStartCount (l : List SSEEvent) : Nat :=
  (l.filter isMessageStartEvt).length

/-- Whether the first `message_start` in an outbound stream precedes the first
`content_block_delta` (vacuously true when either is absent). -/
def msgStartBeforeAnyDelta (l : List SSEEvent) : Bool :=
  match l.findIdx? isMessageStartEvt, l.findIdx? isContentBlockDeltaEvt with
  | some i, some j => i < j
  | _, _ => true

/-- C2: for the provider sequence MessageStart, ContentBlockStart,
ContentBlockDelta("hi"), Metadata(input_tokens=42, output_tokens=1),
MessageStop, the adapter emits exactly content_block_start,
content_block_delta("hi"), message_start (with input_tokens=42), ping,
message_delta, message_stop, in that order; in particular no message_start
is emitted at the moment the MessageStart provider event is received. -/
theorem C2_deferred_message_start_scenario (cap : Nat) :
    handleBedrockStreamConverse cap
      [.messageStart, .contentBlockStart, .contentBlockDelta "hi".toList,
       .metadata (some ⟨some 42, some 1, none, none⟩), .messageStop []]
      = [.contentBlockStart, .contentBlockDelta "hi".toList,
         .messageStart 42 1 0 0, .ping 42 1 0 0,
         .messageDelta "end_turn".toList 1, .messageStop] := rfl

/-- A concrete provider stream on which a content_block_delta is emitted
before the (unique) message_start. -/
def c1CexStream : List ConverseStreamEvent :=
  [.messageStart, .contentBlockStart, .contentBlockDelta "hola".toList,
   .metadata (some ⟨some 7, some 2, none, none⟩), .messageStop []]

/-- C1 counterexample: on the stream `c1CexStream` the adapter emits exactly
one message_start carrying the provider-supplied input_tokens 7, but it
appears at position 2, after the content_block_delta at position 1 — so the
claimed ordering position(message_start) < position(first content_block_delta)
is false. -/
theorem C1_counterexample :
    msgStartBeforeAnyDelta (handleBedrockStreamConverse 3 c1CexStream) = false
    ∧ msgStartCount (handleBedrockStreamConverse 3 c1CexStream) = 1
    ∧ handleBedrockStreamConverse 3 c1CexStream
      = [.contentBlockStart, .contentBlockDelta "hola".toList,
         .messageStart 7 2 0 0, .ping 7 2 0 0,
         .messageDelta "end_turn".toList 2, .messageStop] := by
  decide

theorem msgStartCount_append (a b : List SSEEvent) :
    msgStartCount (a ++ b) = msgStartCount a + msgStartCount b := by
  simp [msgStartCount, List.filter_append]

theorem runStream_append (l1 l2 : List ConverseStreamEvent) (s : StreamState) :
    runStream s (l1 ++ l2)
      = ((runStream (runStream s l1).1 l2).1,
         (runStream s l1).2 ++ (runStream (runStream s l1).1 l2).2) := by
  induction l1 generalizing s with
  | nil => simp [runStream]
  | cons e es ih => simp [runStream, ih]

theorem runStream_sent (l : List ConverseStreamEvent) (s : StreamState)
    (h : s.messageStartSent = true) :
    (runStream s l).1.messageStartSent = true ∧ msgStartCount (runStream s l).2 = 0 := by
  induction l generalizing s with
  | nil => simpa [runStream, msgStartCount]
  | cons e es ih =>
    have hstep : (handleStreamEvent s e).1.messageStartSent = true
        ∧ msgStartCount (handleStreamEvent s e).2 = 0 := by
      rcases e with _ | _ | t | _ | u | r | _
      · simpa [handleStreamEvent, msgStartCount]
      · simp [handleStreamEvent, msgStartCount, isMessageStartEvt, h]
      · simp only [handleStreamEvent]
        split <;> simp [msgStartCount, isMessageStartEvt, h]
      · simp only [handleStreamEvent]
        split
        · split <;> simp [msgStartCount, isMessageStartEvt, h]
        · simp [msgStartCount, isMessageStartEvt, h]
      · rcases u with _ | u
        · simpa [handleStreamEvent, msgStartCount]
        · simp [handleStreamEvent, msgStartCount, isMessageStartEvt, h]
      · simp [handleStreamEvent, msgStartCount, isMessageStartEvt, h]
      · simpa [handleStreamEvent, msgStartCount]
    have hrest := ih (handleStreamEvent s e).1 hstep.1
    refine ⟨?_, ?_⟩
    · simpa [runStream] using hrest.1
    · simp [runStream, msgStartCount_append, hstep.2, hrest.2]

theorem runStream_received (l : List ConverseStreamEvent) (s : StreamState)
    (h : s.messageStartReceived = true) :
    (runStream s l).1.messageStartReceived = true := by
  induction l generalizing s with
  | nil => simpa [runStream]
  | cons e es ih =>
    have hstep : (handleStreamEvent s e).1.messageStartReceived = true := by
      rcases e with _ | _ | t | _ | u | r | _
      · simp [handleStreamEvent]
      · simpa [handleStreamEvent]
      · simp only [handleStreamEvent]
        split <;> simpa
      · simp only [handleStreamEvent]
        split
        · split <;> simpa
        · simpa
      · rcases u with _ | u
        · simpa [handleStreamEvent]
        · simp only [handleStreamEvent]
          split <;> simpa
      · simpa [handleStreamEvent]
      · simpa [handleStreamEvent]
    simpa [runStream] using ih (handleStreamEvent s e).1 hstep

theorem runStream_mem_received (l : List ConverseStreamEvent) (s : StreamState)
    (h : ConverseStreamEvent.messageStart ∈ l) :
    (runStream s l).1.messageStartReceived = true := by
  induction l generalizing s with
  | nil => cases h
  | cons e es ih =>
    rcases List.mem_cons.mp h with he | he
    · subst he
      have : (handleStreamEvent s .messageStart).1.messageStartReceived = true := by
        simp [handleStreamEvent]
      simpa [runStream] using runStream_received es _ this
    · simpa [runStream] using ih (handleStreamEvent s e).1 he

theorem runStream_no_metadata (l : List ConverseStreamEvent) (s : StreamState)
    (h : ∀ e ∈ l, isMetadataEvt e = false) :
    (runStream s l).1.inputTokens = s.inputTokens
    ∧ (runStream s l).1.outputTokens = s.outputTokens
    ∧ (runStream s l).1.cacheReadTokens = s.cacheReadTokens
    ∧ (runStream s l).1.cacheWriteTokens = s.cacheWriteTokens
    ∧ (runStream s l).1.messageStartSent = s.messageStartSent
    ∧ msgStartCount (runStream s l).2 = 0 := by
  induction l generalizing s with
  | nil => simp [runStream, msgStartCount]
  | cons e es ih =>
    have he : isMetadataEvt e = false := h e (List.mem_cons_self e es)
    have hstep : (handleStreamEvent s e).1.inputTokens = s.inputTokens
        ∧ (handleStreamEvent s e).1.outputTokens = s.outputTokens
        ∧ (handleStreamEvent s e).1.cacheReadTokens = s.cacheReadTokens
        ∧ (handleStreamEvent s e).1.cacheWriteTokens = s.cacheWriteTokens
        ∧ (handleStreamEvent s e).1.messageStartSent = s.messageStartSent
        ∧ msgStartCount (handleStreamEvent s e).2 = 0 := by
      rcases e with _ | _ | t | _ | u | r | _
      · simp [handleStreamEvent, msgStartCount]
      · simp [handleStreamEvent, msgStartCount, isMessageStartEvt]
      · simp only [handleStreamEvent]
        split <;> simp [msgStartCount, isMessageStartEvt]
      · simp only [handleStreamEvent]
        split
        · split <;> simp [msgStartCount, isMessageStartEvt]
        · simp [msgStartCount, isMessageStartEvt]
      · simp [isMetadataEvt] at he
      · simp [handleStreamEvent, msgStartCount, isMessageStartEvt]
      · simp [handleStreamEvent, msgStartCount]
    have hrest := ih (handleStreamEvent s e).1 (fun x hx => h x (List.mem_cons_of_mem e hx))
    refine ⟨?_, ?_, ?_, ?_, ?_, ?_⟩
    · simp [runStream]; rw [hrest.1, hstep.1]
    · simp [runStream]; rw [hrest.2.1, hstep.2.1]
    · simp [runStream]; rw [hrest.2.2.1, hstep.2.2.1]
    · simp [runStream]; rw [hrest.2.2.2.1, hstep.2.2.2.1]
    · simp [runStream]; rw [hrest.2.2.2.2.1, hstep.2.2.2.2.1]
    · simp [runStream, msgStartCount_append, hstep.2.2.2.2.2, hrest.2.2.2.2.2]

/-- C1 (amended): for every streamed request whose provider stream contains
MessageStart and, after it, a Metadata event carrying usage, exactly one
message_start is emitted; it carries the provider-supplied input_tokens and is
positioned at the Metadata event — immediately after all SSE events produced
from the provider events preceding the Metadata (which contain no
message_start), hence after, not before, any content_block_delta emitted from
earlier deltas. -/
theorem C1_message_start_amended (cap : Nat) (pre post : List ConverseStreamEvent)
    (u : UsageCounters) (n : Int)
    (hms : ConverseStreamEvent.messageStart ∈ pre)
    (hnometa : ∀ e ∈ pre, isMetadataEvt e = false)
    (hin : u.inputTokens = some n) :
    msgStartCount (handleBedrockStreamConverse cap (pre ++ .metadata (some u) :: post)) = 1
    ∧ (handleBedrockStreamConverse cap (pre ++ .metadata (some u) :: post))[
        (runStream (initialStreamState cap) pre).2.length]?
      = some (.messageStart n (u.outputTokens.getD 0) (u.cacheWriteInputTokens.getD 0)
          (u.cacheReadInputTokens.getD 0))
    ∧ msgStartCount (runStream (initialStreamState cap) pre).2 = 0
    ∧ (handleBedrockStreamConverse cap (pre ++ .metadata (some u) :: post)).take
        (runStream (initialStreamState cap) pre).2.length
      = (runStream (initialStreamState cap) pre).2 := by
  have hpre := runStream_no_metadata pre (initialStreamState cap) hnometa
  have hrecv := runStream_mem_received pre (initialStreamState cap) hms
  have hsent : (runStream (initialStreamState cap) pre).1.messageStartSent = false := by
    rw [hpre.2.2.2.2.1]; rfl
  have hi : (runStream (initialStreamState cap) pre).1.inputTokens = 0 := by
    rw [hpre.1]; rfl
  have ho : (runStream (initialStreamState cap) pre).1.outputTokens = 0 := by
    rw [hpre.2.1]; rfl
  have hcr : (runStream (initialStreamState cap) pre).1.cacheReadTokens = 0 := by
    rw [hpre.2.2.1]; rfl
  have hcw : (runStream (initialStreamState cap) pre).1.cacheWriteTokens = 0 := by
    rw [hpre.2.2.2.1]; rfl
  have hstep : handleStreamEvent (runStream (initialStreamState cap) pre).1 (.metadata (some u))
      = ({ (runStream (initialStreamState cap) pre).1 with
            inputTokens := n,
            outputTokens := u.outputTokens.getD 0,
            cacheReadTokens := u.cacheReadInputTokens.getD 0,
            cacheWriteTokens := u.cacheWriteInputTokens.getD 0,
            messageStartSent := true },
         [.messageStart n (u.outputTokens.getD 0) (u.cacheWriteInputTokens.getD 0)
            (u.cacheReadInputTokens.getD 0),
          .ping n (u.outputTokens.getD 0) (u.cacheWriteInputTokens.getD 0)
            (u.cacheReadInputTokens.getD 0)]) := by
    simp [handleStreamEvent, hi, ho, hcr, hcw, hin, hrecv, hsent]
  have hdecomp : handleBedrockStreamConverse cap (pre ++ .metadata (some u) :: post)
      = (runStream (initialStreamState cap) pre).2
        ++ ([.messageStart n (u.outputTokens.getD 0) (u.cacheWriteInputTokens.getD 0)
              (u.cacheReadInputTokens.getD 0),
             .ping n (u.outputTokens.getD 0) (u.cacheWriteInputTokens.getD 0)
              (u.cacheReadInputTokens.getD 0)]
            ++ (runStream (handleStreamEvent (runStream (initialStreamState cap) pre).1
                  (.metadata (some u))).1 post).2) := by
    unfold handleBedrockStreamConverse
    rw [runStream_append]
    simp only [runStream]
    rw [hstep]
  have hpostsent : (handleStreamEvent (runStream (initialStreamState cap) pre).1
      (.metadata (some u))).1.messageStartSent = true := by
    rw [hstep]
  have hpost := runStream_sent post _ hpostsent
  refine ⟨?_, ?_, hpre.2.2.2.2.2, ?_⟩
  · rw [hdecomp, msgStartCount_append, msgStartCount_append, hpre.2.2.2.2.2, hpost.2]
    simp [msgStartCount, isMessageStartEvt]
  · rw [hdecomp]
    rw [List.getElem?_append_right (le_refl _)]
    simp
  · rw [hdecomp, List.take_left]

/-- Witness for C1 (amended): instantiation on a concrete provider stream. -/
theorem C1_message_start_amended_witness :
    msgStartCount (handleBedrockStreamConverse 3
        ([.messageStart, .contentBlockStart, .contentBlockDelta "hey".toList]
          ++ .metadata (some ⟨some 42, some 1, none, none⟩) :: [.messageStop []])) = 1
    ∧ (handleBedrockStreamConverse 3
        ([.messageStart, .contentBlockStart, .contentBlockDelta "hey".toList]
          ++ .metadata (some ⟨some 42, some 1, none, none⟩) :: [.messageStop []]))[
        (runStream (initialStreamState 3)
          [.messageStart, .contentBlockStart, .contentBlockDelta "hey".toList]).2.length]?
      = some (.messageStart 42 ((some (1 : Int)).getD 0) ((none : Option Int).getD 0)
          ((none : Option Int).getD 0))
    ∧ msgStartCount (runStream (initialStreamState 3)
        [.messageStart, .contentBlockStart, .contentBlockDelta "hey".toList]).2 = 0
    ∧ (handleBedrockStreamConverse 3
        ([.messageStart, .contentBlockStart, .contentBlockDelta "hey".toList]
          ++ .metadata (some ⟨some 42, some 1, none, none⟩) :: [.messageStop []])).take
        (runStream (initialStreamState 3)
          [.messageStart, .contentBlockStart, .contentBlockDelta "hey".toList]).2.length
      = (runStream (initialStreamState 3)
          [.messageStart, .contentBlockStart, .contentBlockDelta "hey".toList]).2 :=
  C1_message_start_amended 3
    [.messageStart, .contentBlockStart, .contentBlockDelta "hey".toList]
    [.messageStop []] ⟨some 42, some 1, none, none⟩ 42
    (by decide) (by decide) rfl

/-! ### Pricing catalog and cost — `pkg/metrics/cost.go` -/

/-- Per-model prices per 1000 tokens (`ModelPricing` in `pkg/metrics/cost.go`).
Go `float64` amounts are modelled as exact rationals; fields absent from a Go
struct literal are the zero value, as in Go. -/
structure ModelPricing where
  inputPer1KTokens : ℚ
  outputPer1KTokens : ℚ
  cacheWritePer1KTokens : ℚ := 0
  cacheReadPer1KTokens : ℚ := 0
deriving DecidableEq

/-- The `PricingTable` map from `pkg/metrics/cost.go`, as an association list. -/
def PricingTable : List (String × ModelPricing) :=
  [("anthropic.claude-3-opus-20240229-v1:0",
    { inputPer1KTokens := 15/1000, outputPer1KTokens := 75/1000 }),
   ("anthropic.claude-3-sonnet-20240229-v1:0",
    { inputPer1KTokens := 3/1000, outputPer1KTokens := 15/1000 }),
   ("anthropic.claude-3-haiku-20240307-v1:0",
    { inputPer1KTokens := 25/100000, outputPer1KTokens := 125/100000 }),
   ("anthropic.claude-3-5-sonnet-20240620-v1:0",
    { inputPer1KTokens := 3/1000, outputPer1KTokens := 15/1000 }),
   ("anthropic.claude-3-5-sonnet-20241022-v2:0",
    { inputPer1KTokens := 3/1000, outputPer1KTokens := 15/1000 }),
   ("anthropic.claude-3-5-haiku-20241022-v1:0",
    { inputPer1KTokens := 1/1000, outputPer1KTokens := 5/1000 }),
   ("us.anthropic.claude-sonnet-4-5-v2:0",
    { inputPer1KTokens := 3/1000, outputPer1KTokens := 15/1000,
      cacheWritePer1KTokens := 375/100000, cacheReadPer1KTokens := 3/10000 }),
   ("eu.anthropic.claude-sonnet-4-5-v2:0",
    { inputPer1KTokens := 3/1000, outputPer1KTokens := 15/1000,
      cacheWritePer1KTokens := 375/100000, cacheReadPer1KTokens := 3/10000 }),
   ("eu.anthropic.claude-sonnet-4-5-20250929-v1:0",
    { inputPer1KTokens := 3/1000, outputPer1KTokens := 15/1000,
      cacheWritePer1KTokens := 375/100000, cacheReadPer1KTokens := 3/10000 }),
   ("arn:aws:bedrock:eu-west-1:701055077130:application-inference-profile/hjy3duh3aoos",
    { inputPer1KTokens := 3/1000, outputPer1KTokens := 15/1000,
      cacheWritePer1KTokens := 375/100000, cacheReadPer1KTokens := 3/10000 }),
   ("arn:aws:bedrock:eu-west-1:701055077130:application-inference-profile/kb2twga41cr4",
    { inputPer1KTokens := 3/1000, outputPer1KTokens := 15/1000,
      cacheWritePer1KTokens := 375/100000, cacheReadPer1KTokens := 3/10000 }),
   ("amazon.titan-text-express-v1",
    { inputPer1KTokens := 2/10000, outputPer1KTokens := 6/10000 }),
   ("amazon.titan-text-lite-v1",
    { inputPer1KTokens := 15/100000, outputPer1KTokens := 2/10000 }),
   ("amazon.titan-text-premier-v1:0",
    { inputPer1KTokens := 5/10000, outputPer1KTokens := 15/10000 }),
   ("ai21.j2-ultra-v1",
    { inputPer1KTokens := 188/10000, outputPer1KTokens := 188/10000 }),
   ("ai21.j2-mid-v1",
    { inputPer1KTokens := 125/10000, outputPer1KTokens := 125/10000 }),
   ("cohere.command-text-v14",
    { inputPer1KTokens := 15/10000, outputPer1KTokens := 2/1000 }),
   ("cohere.command-light-text-v14",
    { inputPer1KTokens := 3/10000, outputPer1KTokens := 6/10000 }),
   ("meta.llama3-8b-instruct-v1:0",
    { inputPer1KTokens := 3/10000, outputPer1KTokens := 6/10000 }),
   ("meta.llama3-70b-instruct-v1:0",
    { inputPer1KTokens := 265/100000, outputPer1KTokens := 35/10000 }),
   ("mistral.mistral-7b-instruct-v0:2",
    { inputPer1KTokens := 15/100000, outputPer1KTokens := 2/10000 }),
   ("mistral.mixtral-8x7b-instruct-v0:1",
    { inputPer1KTokens := 45/100000, outputPer1KTokens := 7/10000 }),
   ("mistral.mistral-large-2402-v1:0",
    { inputPer1KTokens := 8/1000, outputPer1KTokens := 24/1000 })]

/-- Map lookup `PricingTable[modelID]` with its `exists` flag. -/
def lookupPricing (modelID : String) : Option ModelPricing :=
  (PricingTable.find? (fun p => p.1 = modelID)).map Prod.snd

/-- `CalculateCost` from `pkg/metrics/cost.go`: input and output token cost
per 1000 tokens, or an error for an unknown model. -/
def CalculateCost (modelID : String) (inputTokens outputTokens : Int) : Except String ℚ :=
  match lookupPricing modelID with
  | none => .error ("pricing not found for model: " ++ modelID)
  | some pricing =>
    .ok ((inputTokens : ℚ) / 1000 * pricing.inputPer1KTokens
      + (outputTokens : ℚ) / 1000 * pricing.outputPer1KTokens)

/-- `CalculateCostWithCache` from `pkg/metrics/cost.go` lines 400-437: input
tokens are normalised by subtracting cache reads and writes (clamped at 0) and
cache tokens are charged at cache prices, falling back to 10 percent of the
input price for reads and the full input price for writes when the model has
no cache-specific prices. -/
def CalculateCostWithCache (modelID : String)
    (inputTokens outputTokens cacheReadTokens cacheWriteTokens : Int) : Except String ℚ :=
  match lookupPricing modelID with
  | none => .error ("pricing not found for model: " ++ modelID)
  | some pricing =>
    let normalInputTokens := inputTokens - cacheReadTokens - cacheWriteTokens
    let normalInputTokens := if normalInputTokens < 0 then 0 else normalInputTokens
    let normalInputCost := (normalInputTokens : ℚ) / 1000 * pricing.inputPer1KTokens
    let outputCost := (outputTokens : ℚ) / 1000 * pricing.outputPer1KTokens
    let cacheReadCost :=
      if 0 < pricing.cacheReadPer1KTokens then
        (cacheReadTokens : ℚ) / 1000 * pricing.cacheReadPer1KTokens
      else
        (cacheReadTokens : ℚ) / 1000 * pricing.inputPer1KTokens * (1/10)
    let cacheWriteCost :=
      if 0 < pricing.cacheWritePer1KTokens then
        (cacheWriteTokens : ℚ) / 1000 * pricing.cacheWritePer1KTokens
      else
        (cacheWriteTokens : ℚ) / 1000 * pricing.inputPer1KTokens
    .ok (normalInputCost + outputCost + cacheReadCost + cacheWriteCost)

/-- The cost computed by the post-stream processing `processMetrics`
(`BedrockClient.processMetrics`, lines 37-46 of the file defining it): it
calls `CalculateCost` with the captured input and output token counts only,
and falls back to cost 0 on error. -/
def processMetricsCost (modelID : String) (tokensInput tokensOutput : Int) : ℚ :=
  match CalculateCost modelID tokensInput tokensOutput with
  | .ok c => c
  | .error _ => 0

/-- Decidable equality of `Except` results, used to state concrete evaluations
of the fallible cost and store operations. -/
def exceptDecEq {ε α : Type} [DecidableEq ε] [DecidableEq α] : DecidableEq (Except ε α)
  | .ok a, .ok b =>
    if h : a = b then .isTrue (by rw [h]) else .isFalse (by intro hh; cases hh; exact h rfl)
  | .error a, .error b =>
    if h : a = b then .isTrue (by rw [h]) else .isFalse (by intro hh; cases hh; exact h rfl)
  | .ok _, .error _ => .isFalse (by intro hh; cases hh)
  | .error _, .ok _ => .isFalse (by intro hh; cases hh)

instance {ε α : Type} [DecidableEq ε] [DecidableEq α] : DecidableEq (Except ε α) :=
  exceptDecEq

theorem lookupPricing_sonnet45 :
    lookupPricing "eu.anthropic.claude-sonnet-4-5-v2:0"
      = some { inputPer1KTokens := 3/1000, outputPer1KTokens := 15/1000,
               cacheWritePer1KTokens := 375/100000, cacheReadPer1KTokens := 3/10000 } := by
  rfl

/-- C5 (code bug): for a model priced p_in=0.003, p_out=0.015, p_read=0.0003,
p_write=0.00375 and counts input=1000, output=500, cache_read=800,
cache_write=100, the claimed formula — implemented by the never-called
`CalculateCostWithCache` — yields 0.008415 USD, but the cost actually computed
by post-stream processing (`processMetrics` calls the cache-blind
`CalculateCost` with input and output only) is 0.0105 USD. -/
theorem C5_cost_with_cache_bug :
    processMetricsCost "eu.anthropic.claude-sonnet-4-5-v2:0" 1000 500 = 21/2000
    ∧ CalculateCostWithCache "eu.anthropic.claude-sonnet-4-5-v2:0" 1000 500 800 100
      = .ok (8415/1000000)
    ∧ (21/2000 : ℚ) ≠ 8415/1000000 := by
  refine ⟨?_, ?_, by norm_num⟩
  · simp only [processMetricsCost, CalculateCost, lookupPricing_sonnet45]
    norm_num
  · simp only [CalculateCostWithCache, lookupPricing_sonnet45]
    norm_num

/-! ### Quota middleware — `QuotaMiddleware.Middleware` -/

/-- The consolidated quota view returned by the Store's `CheckQuota`
(`QuotaInfo` in `pkg/database/database.go`). -/
structure QuotaInfo where
  userID : String
  monthlyQuotaUSD : ℚ
  dailyLimitUSD : ℚ
  dailyRequestLimit : Int
  monthlyUsedUSD : ℚ
  monthlyRequests : Int
  dailyUsedUSD : ℚ
  dailyRequests : Int
  isBlocked : Bool
  blockedReason : String
deriving DecidableEq

/-- Result of the quota stage: a JSON error response with an HTTP status, or
the quota view attached to the request context with the chain continuing. -/
inductive QuotaOutcome where
  | reject (status : Nat) (message : String)
  | proceed (attached : QuotaInfo)
deriving DecidableEq

/-- `QuotaMiddleware.Middleware`: the user comes from the request context
(absent means not authenticated), the quota view from the Store's `CheckQuota`
(modelled by its result). The rejection checks follow the Go code in order. -/
def QuotaMiddleware (user : Option String) (quotaResult : Except String QuotaInfo) :
    QuotaOutcome :=
  match user with
  | none => .reject 401 "user not authenticated"
  | some _ =>
    match quotaResult with
    | .error e => .reject 500 ("error checking quota: " ++ e)
    | .ok q =>
      if q.isBlocked then .reject 403 "user is blocked due to quota limits exceeded"
      else if q.dailyUsedUSD ≥ q.dailyLimitUSD then .reject 429 "daily cost limit exceeded"
      else if q.dailyRequests ≥ q.dailyRequestLimit then .reject 429 "daily request limit exceeded"
      else if q.monthlyUsedUSD ≥ q.monthlyQuotaUSD then .reject 429 "monthly quota exceeded"
      else .proceed q

/-- C6: for every authenticated request the quota stage applies its rules in
order with the first match winning — blocked callers get 403, then the daily
cost, daily request and monthly cost limits each give 429, and otherwise the
quota view is attached and the chain continues. Stated as an exact
characterization of each outcome. -/
theorem C6_quota_rejection_order (u : String) (q : QuotaInfo) :
    (QuotaMiddleware (some u) (.ok q) = .reject 403 "user is blocked due to quota limits exceeded"
      ↔ q.isBlocked = true)
    ∧ (QuotaMiddleware (some u) (.ok q) = .reject 429 "daily cost limit exceeded"
      ↔ q.isBlocked = false ∧ q.dailyUsedUSD ≥ q.dailyLimitUSD)
    ∧ (QuotaMiddleware (some u) (.ok q) = .reject 429 "daily request limit exceeded"
      ↔ q.isBlocked = false ∧ ¬ q.dailyUsedUSD ≥ q.dailyLimitUSD
        ∧ q.dailyRequests ≥ q.dailyRequestLimit)
    ∧ (QuotaMiddleware (some u) (.ok q) = .reject 429 "monthly quota exceeded"
      ↔ q.isBlocked = false ∧ ¬ q.dailyUsedUSD ≥ q.dailyLimitUSD
        ∧ ¬ q.dailyRequests ≥ q.dailyRequestLimit ∧ q.monthlyUsedUSD ≥ q.monthlyQuotaUSD)
    ∧ (QuotaMiddleware (some u) (.ok q) = .proceed q
      ↔ q.isBlocked = false ∧ ¬ q.dailyUsedUSD ≥ q.dailyLimitUSD
        ∧ ¬ q.dailyRequests ≥ q.dailyRequestLimit ∧ ¬ q.monthlyUsedUSD ≥ q.monthlyQuotaUSD) := by
  simp only [QuotaMiddleware]
  by_cases h1 : q.isBlocked = true <;>
    by_cases h2 : q.dailyUsedUSD ≥ q.dailyLimitUSD <;>
      by_cases h3 : q.dailyRequests ≥ q.dailyRequestLimit <;>
        by_cases h4 : q.monthlyUsedUSD ≥ q.monthlyQuotaUSD <;>
          simp [h1, h2, h3, h4]

/-! ### Rate limiter — `pkg/auth/rate_limiter.go` -/

/-- Rate limiter configuration (fields of `RateLimiter`). Durations are in
seconds; the defaults are 10 attempts per source, 5 per token hash, a
15 minute block and a 1 minute window. -/
structure RateLimiterConfig where
  maxAttemptsPerIP : Nat
  maxAttemptsPerToken : Nat
  blockDuration : Int
  windowDuration : Int
deriving DecidableEq

/-- The defaults set by `NewRateLimiter`. -/
def defaultRateLimiterConfig : RateLimiterConfig :=
  { maxAttemptsPerIP := 10, maxAttemptsPerToken := 5, blockDuration := 900, windowDuration := 60 }

/-- Per-source attempt record (`IPAttempts`). The Go zero time value of
`BlockedUntil` is modelled as instant 0; real instants are nonnegative. -/
structure IPAttempts where
  count : Nat
  firstAttempt : Int
  lastAttempt : Int
  blockedUntil : Int
deriving DecidableEq

/-- Per-token-hash attempt record (`TokenAttempts`). -/
structure TokenAttempts where
  count : Nat
  firstAttempt : Int
  blockedUntil : Int
deriving DecidableEq

/-- `RateLimiter.CheckIP` (`pkg/auth/rate_limiter.go` lines 81-117): returns
whether the attempt is allowed, the retry-after duration, and the stored
record (created when absent, reset when the window elapsed, block stamped when
the count reaches the limit). -/
def CheckIP (cfg : RateLimiterConfig) (now : Int) (rec : Option IPAttempts) :
    Bool × Int × IPAttempts :=
  let attempts :=
    match rec with
    | some a => a
    | none => { count := 0, firstAttempt := now, lastAttempt := now, blockedUntil := 0 }
  if now < attempts.blockedUntil then
    (false, attempts.blockedUntil - now, attempts)
  else
    let attempts :=
      if cfg.windowDuration < now - attempts.firstAttempt then
        { attempts with count := 0, firstAttempt := now }
      else attempts
    if cfg.maxAttemptsPerIP ≤ attempts.count then
      (false, cfg.blockDuration, { attempts with blockedUntil := now + cfg.blockDuration })
    else
      (true, 0, attempts)

/-- `RateLimiter.CheckToken`: pure check, never creates or mutates records. -/
def CheckToken (now : Int) (tokenHash : String)
    (tokRec : String → Option TokenAttempts) : Bool × Int :=
  if tokenHash = "" then (true, 0)
  else
    match tokRec tokenHash with
    | none => (true, 0)
    | some a => if now < a.blockedUntil then (false, a.blockedUntil - now) else (true, 0)

/-- The source-address part of `RateLimiter.RecordFailedAttempt`
(`pkg/auth/rate_limiter.go` lines 150-160): increment the counter, or create a
record with count 1. The source record's block stamp is never set here. -/
def recordFailedIP (now : Int) (rec : Option IPAttempts) : IPAttempts :=
  match rec with
  | some a => { a with count := a.count + 1, lastAttempt := now }
  | none => { count := 1, firstAttempt := now, lastAttempt := now, blockedUntil := 0 }

/-- The token-hash part of `RateLimiter.RecordFailedAttempt` (lines 163-179):
increment, and stamp the block when the count reaches the token limit. -/
def recordFailedToken (cfg : RateLimiterConfig) (now : Int) (rec : Option TokenAttempts) :
    TokenAttempts :=
  let a :=
    match rec with
    | some a => a
    | none => { count := 0, firstAttempt := now, blockedUntil := 0 }
  let a := { a with count := a.count + 1 }
  if cfg.maxAttemptsPerToken ≤ a.count then { a with blockedUntil := now + cfg.blockDuration }
  else a

/-- `RateLimiter.RecordSuccessfulAttempt`: zero the source counter. -/
def recordSuccessIP (now : Int) (rec : Option IPAttempts) : Option IPAttempts :=
  match rec with
  | some a => some { a with count := 0, firstAttempt := now }
  | none => none

/-- A sequence of recorded failed attempts from one source at the given
instants, starting from the given record. -/
def recordFailures (ts : List Int) (rec : Option IPAttempts) : Option IPAttempts :=
  ts.foldl (fun r τ => some (recordFailedIP τ r)) rec

theorem recordFailures_some (ts : List Int) (a : IPAttempts) :
    ∃ la, recordFailures ts (some a)
      = some { count := a.count + ts.length, firstAttempt := a.firstAttempt,
               lastAttempt := la, blockedUntil := a.blockedUntil } := by
  induction ts generalizing a with
  | nil => exact ⟨a.lastAttempt, rfl⟩
  | cons τ ts ih =>
    obtain ⟨la, hla⟩ := ih { a with count := a.count + 1, lastAttempt := τ }
    refine ⟨la, ?_⟩
    simp only [recordFailures, List.foldl_cons, recordFailedIP] at hla ⊢
    rw [hla, List.length_cons]
    have hc : a.count + 1 + ts.length = a.count + (ts.length + 1) := by omega
    simp [hc]

theorem recordFailures_cons (t0 : Int) (rest : List Int) :
    ∃ la, recordFailures (t0 :: rest) none
      = some { count := rest.length + 1, firstAttempt := t0,
               lastAttempt := la, blockedUntil := 0 } := by
  obtain ⟨la, hla⟩ := recordFailures_some rest
    { count := 1, firstAttempt := t0, lastAttempt := t0, blockedUntil := 0 }
  refine ⟨la, ?_⟩
  simp only [recordFailures, List.foldl_cons, recordFailedIP] at hla ⊢
  rw [hla]
  have hc : 1 + rest.length = rest.length + 1 := by omega
  simp [hc]

/-! ### Auth middleware — `pkg/auth/middleware.go`, `pkg/auth/jwt.go` -/

/-- `ExtractBearerToken` from `pkg/auth/jwt.go`: strip the `Bearer ` scheme
from the Authorization header value. Error messages follow the Go code (the
single-quote characters of one message are omitted). -/
def ExtractBearerToken (authHeader : String) : Except String String :=
  if authHeader = "" then .error "authorization header is empty"
  else if authHeader.length < 7 then .error "invalid authorization header format"
  else if ¬ authHeader.take 7 = "Bearer " then
    .error "authorization header must start with Bearer"
  else if authHeader.drop 7 = "" then .error "token is empty"
  else .ok (authHeader.drop 7)

/-- JWT claims (`JWTClaims`) as used by the middleware after successful
validation. -/
structure JWTClaims where
  userID : String
  email : String
  iamUsername : String
  iamGroups : List String
  defaultInferenceProfile : String
  team : String
  person : String
  id : String
deriving DecidableEq

/-- `UserContext` attached to the request on successful authentication. -/
structure UserContext where
  userID : String
  email : String
  iamUsername : String
  iamGroups : List String
  defaultInferenceProfile : String
  team : String
  person : String
  jti : String
deriving DecidableEq

/-- `TokenInfo` returned by the Store's `ValidateToken`
(`pkg/database/database.go`). -/
structure TokenInfo where
  jti : String
  userID : String
  email : String
  team : String
  person : String
  role : String
  isRevoked : Bool
  expiresAt : Int
  monthlyQuota : ℚ
  dailyLimit : ℚ
  dailyReqLimit : Int
  inferenceProfile : String
deriving DecidableEq

/-- The failure branch taken by the auth stage, mirroring the middleware's
rejection points (the spec's failure taxonomy). -/
inductive AuthFailKind where
  | badHeader
  | missingCreds
  | invalidJWT
  | dbRejected
  | revoked
  | userMismatch
deriving DecidableEq

/-- Outcome of the auth stage: a 429 with Retry-After, a 401 tagged with the
failing check and its error message, or success passing the user context on. -/
inductive AuthOutcome where
  | rateLimited (retryAfter : Int) (message : String)
  | unauthorized (kind : AuthFailKind) (message : String)
  | success (user : UserContext)
deriving DecidableEq

/-- HTTP status of an auth outcome (success stands for invoking the next
handler). -/
def statusOfAuth : AuthOutcome → Nat
  | .rateLimited _ _ => 429
  | .unauthorized _ _ => 401
  | .success _ => 200

/-- Credential extraction of `AuthMiddleware.Middleware`: the Authorization
header takes precedence; the `x-api-key` header is the fallback; an absent
header reads as the empty string, as with Go's `Header.Get`. -/
def getAuthToken (authHeader xApiKey : String) :
    Except (AuthFailKind × String) String :=
  if ¬ authHeader = "" then
    match ExtractBearerToken authHeader with
    | .error e => .error (.badHeader, "invalid authorization header: " ++ e)
    | .ok t => .ok t
  else if xApiKey = "" then .error (.missingCreds, "missing authorization header or x-api-key")
  else .ok xApiKey

/-- `AuthMiddleware.Middleware` from `pkg/auth/middleware.go` lines 50-126.
The JWT signature check (`ValidateToken` of `pkg/auth/jwt.go`, a
crypto-library call) and the SHA-256 `HashToken` are oracles passed as
functions; the Store lookup is the `dbValidateTok` oracle. The checks run in
the Go order: source rate limit, credential extraction, token-hash rate
limit, JWT validation, store validation, revocation flag, subject match. -/
def AuthMiddleware (cfg : RateLimiterConfig) (now : Int)
    (ipRec : Option IPAttempts) (tokRec : String → Option TokenAttempts)
    (hashToken : String → String)
    (validateJWT : String → Except String JWTClaims)
    (dbValidateTok : String → Except String TokenInfo)
    (authHeader xApiKey : String) : AuthOutcome :=
  let c := CheckIP cfg now ipRec
  if c.1 = false then
    .rateLimited c.2.1 "too many authentication attempts from IP"
  else
    match getAuthToken authHeader xApiKey with
    | .error e => .unauthorized e.1 e.2
    | .ok tokenString =>
      let tokenHash := hashToken tokenString
      let ct := CheckToken now tokenHash tokRec
      if ct.1 = false then
        .rateLimited ct.2 "too many authentication attempts with this token"
      else
        match validateJWT tokenString with
        | .error e => .unauthorized .invalidJWT ("invalid token: " ++ e)
        | .ok claims =>
          match dbValidateTok tokenHash with
          | .error e => .unauthorized .dbRejected ("token validation failed: " ++ e)
          | .ok tokenInfo =>
            if tokenInfo.isRevoked then .unauthorized .revoked "token has been revoked"
            else if ¬ tokenInfo.userID = claims.userID then
              .unauthorized .userMismatch "token user mismatch"
            else .success
              { userID := claims.userID, email := claims.email,
                iamUsername := claims.iamUsername, iamGroups := claims.iamGroups,
                defaultInferenceProfile := claims.defaultInferenceProfile,
                team := claims.team, person := claims.person, jti := claims.id }

/-- C7: once max_per_source failed attempts have been recorded from one source
within the window, the next attempt from that source is denied with 429 and a
Retry-After that is positive and at most block_duration, and any further
attempt within block_duration — whatever credentials it presents, valid token
included — is denied with 429 by the auth middleware. -/
theorem C7_source_lockout (cfg : RateLimiterConfig) (t0 : Int) (rest : List Int)
    (t tp : Int) (tokRec : String → Option TokenAttempts) (hashToken : String → String)
    (validateJWT : String → Except String JWTClaims)
    (dbValidateTok : String → Except String TokenInfo)
    (authHeader xApiKey : String)
    (hlen : rest.length + 1 = cfg.maxAttemptsPerIP)
    (h00 : 0 ≤ t0) (h0t : t0 ≤ t)
    (hwin : t - t0 ≤ cfg.windowDuration)
    (hbd : 0 < cfg.blockDuration)
    (htt : t ≤ tp) (htb : tp < t + cfg.blockDuration) :
    (CheckIP cfg t (recordFailures (t0 :: rest) none)).1 = false
    ∧ 0 < (CheckIP cfg t (recordFailures (t0 :: rest) none)).2.1
    ∧ (CheckIP cfg t (recordFailures (t0 :: rest) none)).2.1 ≤ cfg.blockDuration
    ∧ statusOfAuth (AuthMiddleware cfg tp
        (some (CheckIP cfg t (recordFailures (t0 :: rest) none)).2.2) tokRec hashToken
        validateJWT dbValidateTok authHeader xApiKey) = 429 := by
  obtain ⟨la, hrec⟩ := recordFailures_cons t0 rest
  have hb : ¬ t < (0 : ℤ) := by omega
  have hw : ¬ cfg.windowDuration < t - t0 := by omega
  have hm : cfg.maxAttemptsPerIP ≤ rest.length + 1 := by omega
  have hcheck : CheckIP cfg t (recordFailures (t0 :: rest) none)
      = (false, cfg.blockDuration,
         { count := rest.length + 1, firstAttempt := t0, lastAttempt := la,
           blockedUntil := t + cfg.blockDuration }) := by
    rw [hrec]
    simp [CheckIP, hb, hw, hm]
  have hcheck2 : (CheckIP cfg tp (some
      { count := rest.length + 1, firstAttempt := t0,
        lastAttempt := la, blockedUntil := t + cfg.blockDuration })).1 = false := by
    simp [CheckIP, htb]
  refine ⟨by rw [hcheck], ?_, ?_, ?_⟩
  · rw [hcheck]
    exact hbd
  · rw [hcheck]
  · rw [hcheck]
    simp [AuthMiddleware, hcheck2, statusOfAuth]

/-- Witness for C7: the default configuration, ten failures recorded at
instants 0..9, the 11th attempt at instant 30, a later attempt at instant 500
carrying some credential. -/
theorem C7_source_lockout_witness :
    (CheckIP defaultRateLimiterConfig 30
        (recordFailures [0, 1, 2, 3, 4, 5, 6, 7, 8, 9] none)).1 = false
    ∧ 0 < (CheckIP defaultRateLimiterConfig 30
        (recordFailures [0, 1, 2, 3, 4, 5, 6, 7, 8, 9] none)).2.1
    ∧ (CheckIP defaultRateLimiterConfig 30
        (recordFailures [0, 1, 2, 3, 4, 5, 6, 7, 8, 9] none)).2.1
      ≤ defaultRateLimiterConfig.blockDuration
    ∧ statusOfAuth (AuthMiddleware defaultRateLimiterConfig 500
        (some (CheckIP defaultRateLimiterConfig 30
          (recordFailures [0, 1, 2, 3, 4, 5, 6, 7, 8, 9] none)).2.2)
        (fun _ => none) (fun s => s) (fun _ => .ok ⟨"u", "e", "i", [], "p", "tm", "pr", "j"⟩)
        (fun _ => .ok ⟨"j", "u", "e", "tm", "pr", "r", false, 1000000, 100, 10, 100, "p"⟩)
        "" "valid-token") = 429 :=
  C7_source_lockout defaultRateLimiterConfig 0 [1, 2, 3, 4, 5, 6, 7, 8, 9] 30 500
    (fun _ => none) (fun s => s) (fun _ => .ok ⟨"u", "e", "i", [], "p", "tm", "pr", "j"⟩)
    (fun _ => .ok ⟨"j", "u", "e", "tm", "pr", "r", false, 1000000, 100, 10, 100, "p"⟩)
    "" "valid-token" (by decide) (by decide) (by decide) (by decide) (by decide)
    (by decide) (by decide)

/-- C8 counterexample: a request presenting an expired token from a source
address that is rate-limit blocked receives 429, not 401 — the rate-limit
state does change the response to an expired token. -/
theorem C8_counterexample :
    statusOfAuth (AuthMiddleware defaultRateLimiterConfig 100
      (some { count := 0, firstAttempt := 0, lastAttempt := 0, blockedUntil := 500 })
      (fun _ => none) (fun s => s) (fun _ => .error "token is expired")
      (fun _ => .error "token not found or invalid") "" "expired-token") = 429
    ∧ ¬ statusOfAuth (AuthMiddleware defaultRateLimiterConfig 100
      (some { count := 0, firstAttempt := 0, lastAttempt := 0, blockedUntil := 500 })
      (fun _ => none) (fun s => s) (fun _ => .error "token is expired")
      (fun _ => .error "token not found or invalid") "" "expired-token") = 401 := by
  decide

/-- C8 (amended): provided neither the source address nor the token hash is
rate-limit blocked, a request presenting a token that is expired (JWT
validation fails), unknown or expired at the store, or revoked, is answered
with HTTP 401. -/
theorem C8_expired_revoked_401 (cfg : RateLimiterConfig) (now : Int)
    (ipRec : Option IPAttempts) (tokRec : String → Option TokenAttempts)
    (hashToken : String → String)
    (validateJWT : String → Except String JWTClaims)
    (dbValidateTok : String → Except String TokenInfo)
    (authHeader xApiKey t : String)
    (hip : (CheckIP cfg now ipRec).1 = true)
    (hget : getAuthToken authHeader xApiKey = .ok t)
    (htok : (CheckToken now (hashToken t) tokRec).1 = true)
    (hbad : (∃ e, validateJWT t = .error e)
      ∨ (∃ e, dbValidateTok (hashToken t) = .error e)
      ∨ (∃ info, dbValidateTok (hashToken t) = .ok info ∧ info.isRevoked = true)) :
    statusOfAuth (AuthMiddleware cfg now ipRec tokRec hashToken validateJWT dbValidateTok
      authHeader xApiKey) = 401 := by
  rcases hbad with ⟨e, he⟩ | ⟨e, he⟩ | ⟨info, hinfo, hrev⟩
  · simp [AuthMiddleware, hip, hget, htok, he, statusOfAuth]
  · cases hjv : validateJWT t with
    | error e2 => simp [AuthMiddleware, hip, hget, htok, hjv, statusOfAuth]
    | ok claims => simp [AuthMiddleware, hip, hget, htok, hjv, he, statusOfAuth]
  · cases hjv : validateJWT t with
    | error e2 => simp [AuthMiddleware, hip, hget, htok, hjv, statusOfAuth]
    | ok claims => simp [AuthMiddleware, hip, hget, htok, hjv, hinfo, hrev, statusOfAuth]

/-- Witness for C8 (amended): clean rate state, expired token, response 401. -/
theorem C8_expired_revoked_401_witness :
    statusOfAuth (AuthMiddleware defaultRateLimiterConfig 100 none (fun _ => none)
      (fun s => s) (fun _ => .error "token expired")
      (fun _ => .error "token not found or invalid") "" "sometoken") = 401 :=
  C8_expired_revoked_401 defaultRateLimiterConfig 100 none (fun _ => none) (fun s => s)
    (fun _ => .error "token expired") (fun _ => .error "token not found or invalid")
    "" "sometoken" "sometoken" (by decide) (by decide) (by decide)
    (Or.inl ⟨"token expired", rfl⟩)

/-! ### Store — `pkg/database/database.go` -/

/-- One row of the `user_blocking_status` table. Nullable columns are
`Option`; instants are integers, `today` denotes the first instant of the
current day (SQL `CURRENT_DATE`). -/
structure BlockingStatusRow where
  userID : String
  dailyRequests : Int
  dailyCostUsd : ℚ
  lastRequestAt : Option Int
  isBlocked : Bool
  blockedReason : Option String
  blockedAt : Option Int
  blockedUntil : Option Int
  blockedByAdminId : Option String
  lastResetAt : Option Int
  updatedAt : Int
deriving DecidableEq

/-- The WHERE clause of the UPDATE in `ResetDailyCounters`
(`pkg/database/database.go` lines 129-141): `last_request_at < CURRENT_DATE
AND blocked_by_admin_id IS NULL`. A NULL `last_request_at` does not satisfy
the SQL comparison. -/
def resetEligible (today : Int) (r : BlockingStatusRow) : Bool :=
  (match r.lastRequestAt with
   | some ts => decide (ts < today)
   | none => false)
  && r.blockedByAdminId.isNone

/-- The SET clause of the same UPDATE applied to a single row. -/
def applyDailyReset (today now : Int) (r : BlockingStatusRow) : BlockingStatusRow :=
  if resetEligible today r then
    { r with dailyRequests := 0, dailyCostUsd := 0, isBlocked := false,
             blockedReason := none, blockedAt := none, blockedUntil := none,
             lastResetAt := some now, updatedAt := now }
  else r

/-- `Database.ResetDailyCounters`: the UPDATE statement over the whole
`user_blocking_status` table (the surrounding transaction also computes
result counts, which do not modify rows). -/
def ResetDailyCounters (today now : Int) (rows : List BlockingStatusRow) :
    List BlockingStatusRow :=
  rows.map (applyDailyReset today now)

/-- C9: the daily reset zeroes the daily counters and clears the block fields,
stamping `last_reset_at`, exactly for rows whose `last_request_at` is before
the current day and whose admin-block marker is NULL; every other row — in
particular any admin-blocked row — is left unchanged. -/
theorem C9_daily_reset_frame (today now : Int) (rows : List BlockingStatusRow) :
    ResetDailyCounters today now rows = rows.map (applyDailyReset today now)
    ∧ (∀ r ∈ rows, ∀ ts, r.lastRequestAt = some ts → ts < today →
        r.blockedByAdminId = none →
        applyDailyReset today now r
          = { r with
              dailyRequests := 0, dailyCostUsd := 0, isBlocked := false,
              blockedReason := none, blockedAt := none, blockedUntil := none,
              lastResetAt := some now, updatedAt := now })
    ∧ (∀ r ∈ rows,
        ((∀ ts, r.lastRequestAt = some ts → ¬ ts < today) ∨ ¬ r.blockedByAdminId = none) →
        applyDailyReset today now r = r)
    ∧ (∀ r ∈ rows, r.blockedByAdminId.isSome → applyDailyReset today now r = r) := by
  refine ⟨rfl, ?_, ?_, ?_⟩
  · intro r _ ts hts hlt hadm
    simp [applyDailyReset, resetEligible, hts, hadm, hlt]
  · intro r _ h
    rcases h with h | h
    · rcases hts : r.lastRequestAt with _ | ts
      · simp [applyDailyReset, resetEligible, hts]
      · simp [applyDailyReset, resetEligible, hts, h ts hts]
    · have : r.blockedByAdminId.isNone = false := by
        rcases hadm : r.blockedByAdminId with _ | a
        · exact absurd hadm h
        · rfl
      simp [applyDailyReset, resetEligible, this]
  · intro r _ h
    have : r.blockedByAdminId.isNone = false := by
      rcases hadm : r.blockedByAdminId with _ | a
      · rw [hadm] at h; cases h
      · rfl
    simp [applyDailyReset, resetEligible, this]

/-- Witness for C9: a concrete eligible row is reset by the theorem's second
part. -/
theorem C9_daily_reset_frame_witness :
    applyDailyReset 10 99
      { userID := "u", dailyRequests := 7, dailyCostUsd := 3, lastRequestAt := some 5,
        isBlocked := true, blockedReason := some "Daily cost limit exceeded",
        blockedAt := some 6, blockedUntil := some 20, blockedByAdminId := none,
        lastResetAt := none, updatedAt := 6 }
      = { userID := "u", dailyRequests := 0, dailyCostUsd := 0, lastRequestAt := some 5,
          isBlocked := false, blockedReason := none, blockedAt := none,
          blockedUntil := none, blockedByAdminId := none,
          lastResetAt := some 99, updatedAt := 99 } :=
  (C9_daily_reset_frame 10 99
      [{ userID := "u", dailyRequests := 7, dailyCostUsd := 3, lastRequestAt := some 5,
         isBlocked := true, blockedReason := some "Daily cost limit exceeded",
         blockedAt := some 6, blockedUntil := some 20, blockedByAdminId := none,
         lastResetAt := none, updatedAt := 6 }]).2.1
    _ (List.mem_singleton.mpr rfl) 5 rfl (by omega) rfl

/-- One row of the `tokens` table. -/
structure TokenRow where
  tokenHash : String
  jti : String
  userID : String
  isRevoked : Bool
  expiresAt : Int
deriving DecidableEq

/-- One row of the `users` table (the columns read by `ValidateToken`). -/
structure UserRow where
  iamUsername : String
  email : String
  team : String
  person : String
  role : String
  isActive : Bool
  monthlyQuotaUsd : ℚ
  dailyLimitUsd : ℚ
  dailyRequestLimit : Int
  defaultInferenceProfile : String
deriving DecidableEq

/-- `Database.ValidateToken` (`pkg/database/database.go` lines 205-252): the
SQL query selects the token row with the given hash joined to its owning
user, restricted by `is_revoked = false AND expires_at > NOW() AND
u.is_active = true`; no matching row yields the error `token not found or
invalid`. -/
def dbValidateToken (tokens : List TokenRow) (users : List UserRow) (now : Int)
    (tokenHash : String) : Except String TokenInfo :=
  let rows := tokens.filterMap (fun tr =>
    if tr.tokenHash = tokenHash ∧ tr.isRevoked = false ∧ now < tr.expiresAt then
      (users.find? (fun u => u.iamUsername == tr.userID && u.isActive)).map
        (fun u => (tr, u))
    else none)
  match rows with
  | [] => .error "token not found or invalid"
  | (tr, u) :: _ =>
    .ok { jti := tr.jti, userID := tr.userID, email := u.email, team := u.team,
          person := u.person, role := u.role, isRevoked := tr.isRevoked,
          expiresAt := tr.expiresAt, monthlyQuota := u.monthlyQuotaUsd,
          dailyLimit := u.dailyLimitUsd, dailyReqLimit := u.dailyRequestLimit,
          inferenceProfile := u.defaultInferenceProfile }

theorem dbValidateToken_ok_sound (tokens : List TokenRow) (users : List UserRow)
    (now : Int) (tokenHash : String) (info : TokenInfo)
    (h : dbValidateToken tokens users now tokenHash = .ok info) :
    info.isRevoked = false ∧ now < info.expiresAt
    ∧ ∃ u ∈ users, u.iamUsername = info.userID ∧ u.isActive = true := by
  unfold dbValidateToken at h
  rcases hrows : tokens.filterMap (fun tr =>
      if tr.tokenHash = tokenHash ∧ tr.isRevoked = false ∧ now < tr.expiresAt then
        (users.find? (fun u => u.iamUsername == tr.userID && u.isActive)).map
          (fun u => (tr, u))
      else none) with _ | ⟨⟨tr, u⟩, ps⟩
  · rw [hrows] at h
    exact absurd h (by simp)
  · rw [hrows] at h
    have hmem : (tr, u) ∈ tokens.filterMap (fun tr =>
        if tr.tokenHash = tokenHash ∧ tr.isRevoked = false ∧ now < tr.expiresAt then
          (users.find? (fun u => u.iamUsername == tr.userID && u.isActive)).map
            (fun u => (tr, u))
        else none) := by
      rw [hrows]
      exact List.mem_cons_self _ _
    obtain ⟨tr0, _, hf⟩ := List.mem_filterMap.mp hmem
    by_cases hc : tr0.tokenHash = tokenHash ∧ tr0.isRevoked = false ∧ now < tr0.expiresAt
    · rw [if_pos hc] at hf
      obtain ⟨u0, hfind, hpair⟩ := Option.map_eq_some'.mp hf
      have hpred := List.find?_some hfind
      have humem := List.mem_of_find?_eq_some hfind
      simp only [Bool.and_eq_true, beq_iff_eq] at hpred
      obtain ⟨htr0, hu0⟩ : tr0 = tr ∧ u0 = u := by
        constructor <;> [exact congrArg Prod.fst hpair; exact congrArg Prod.snd hpair]
      subst htr0
      subst hu0
      simp only [Except.ok.injEq] at h
      subst h
      refine ⟨hc.2.1, hc.2.2, u0, humem, ?_, hpred.2⟩
      exact hpred.1
    · rw [if_neg hc] at hf
      cases hf

theorem dbValidateToken_unknown_error (tokens : List TokenRow) (users : List UserRow)
    (now : Int) (tokenHash : String)
    (hall : ∀ tr ∈ tokens, tr.tokenHash = tokenHash →
      tr.isRevoked = true ∨ tr.expiresAt ≤ now) :
    dbValidateToken tokens users now tokenHash = .error "token not found or invalid" := by
  unfold dbValidateToken
  have hnil : tokens.filterMap (fun tr =>
      if tr.tokenHash = tokenHash ∧ tr.isRevoked = false ∧ now < tr.expiresAt then
        (users.find? (fun u => u.iamUsername == tr.userID && u.isActive)).map
          (fun u => (tr, u))
      else none) = [] := by
    rw [List.filterMap_eq_nil_iff]
    intro tr htr
    have : ¬ (tr.tokenHash = tokenHash ∧ tr.isRevoked = false ∧ now < tr.expiresAt) := by
      intro ⟨h1, h2, h3⟩
      rcases hall tr htr h1 with hr | hr
      · rw [h2] at hr
        cases hr
      · omega
    rw [if_neg this]
  rw [hnil]

theorem getAuthToken_error_kind (authHeader xApiKey : String) (k : AuthFailKind)
    (m : String) (h : getAuthToken authHeader xApiKey = .error (k, m)) :
    k = .badHeader ∨ k = .missingCreds := by
  unfold getAuthToken at h
  split at h
  · split at h
    · left
      exact (congrArg Prod.fst (Except.error.inj h)).symm
    · cases h
  · split at h
    · right
      exact (congrArg Prod.fst (Except.error.inj h)).symm
    · cases h

theorem authMiddleware_revoked_unreachable (cfg : RateLimiterConfig) (now : Int)
    (ipRec : Option IPAttempts) (tokRec : String → Option TokenAttempts)
    (hashToken : String → String) (validateJWT : String → Except String JWTClaims)
    (tokens : List TokenRow) (users : List UserRow) (dbnow : Int)
    (authHeader xApiKey msg : String) :
    AuthMiddleware cfg now ipRec tokRec hashToken validateJWT
        (fun h => dbValidateToken tokens users dbnow h) authHeader xApiKey
      ≠ .unauthorized .revoked msg := by
  intro heq
  unfold AuthMiddleware at heq
  dsimp only at heq
  rcases hb1 : (CheckIP cfg now ipRec).1 with _ | _
  · rw [hb1] at heq
    simp at heq
  · rw [hb1] at heq
    simp only [Bool.true_eq_false, if_false] at heq
    rcases hget : getAuthToken authHeader xApiKey with e | t
    · rw [hget] at heq
      simp only [] at heq
      rcases getAuthToken_error_kind authHeader xApiKey e.1 e.2 (by rw [hget]) with hk | hk <;>
        · rw [AuthOutcome.unauthorized.injEq] at heq
          rw [hk] at heq
          cases heq.1
    · rw [hget] at heq
      dsimp only at heq
      rcases hct : (CheckToken now (hashToken t) tokRec).1 with _ | _
      · rw [hct] at heq
        simp at heq
      · rw [hct] at heq
        simp only [Bool.true_eq_false, if_false] at heq
        rcases hjv : validateJWT t with e2 | claims
        · rw [hjv] at heq
          simp at heq
        · rw [hjv] at heq
          dsimp only at heq
          rcases hdb : dbValidateToken tokens users dbnow (hashToken t) with e3 | info
          · rw [hdb] at heq
            simp at heq
          · rw [hdb] at heq
            dsimp only at heq
            have hrev := (dbValidateToken_ok_sound tokens users dbnow (hashToken t) info hdb).1
            rw [hrev] at heq
            simp only [Bool.false_eq_true, if_false] at heq
            split at heq
            · simp at heq
            · cases heq

/-- C10: every `TokenInfo` returned successfully by the Store's
`ValidateToken` has `IsRevoked = false`, an expiry strictly after `now`, and
an active owning user; a hash whose tokens are all revoked or expired (in
particular an unknown hash) yields an error; consequently the auth
middleware's post-lookup "token has been revoked" branch is unreachable when
the store lookup is `ValidateToken`. -/
theorem C10_validate_token_sound :
    (∀ (tokens : List TokenRow) (users : List UserRow) (now : Int) (tokenHash : String)
        (info : TokenInfo),
      dbValidateToken tokens users now tokenHash = .ok info →
        info.isRevoked = false ∧ now < info.expiresAt
        ∧ ∃ u ∈ users, u.iamUsername = info.userID ∧ u.isActive = true)
    ∧ (∀ (tokens : List TokenRow) (users : List UserRow) (now : Int) (tokenHash : String),
        (∀ tr ∈ tokens, tr.tokenHash = tokenHash →
          tr.isRevoked = true ∨ tr.expiresAt ≤ now) →
        dbValidateToken tokens users now tokenHash = .error "token not found or invalid")
    ∧ (∀ (cfg : RateLimiterConfig) (now : Int) (ipRec : Option IPAttempts)
        (tokRec : String → Option TokenAttempts) (hashToken : String → String)
        (validateJWT : String → Except String JWTClaims)
        (tokens : List TokenRow) (users : List UserRow) (dbnow : Int)
        (authHeader xApiKey msg : String),
        AuthMiddleware cfg now ipRec tokRec hashToken validateJWT
            (fun h => dbValidateToken tokens users dbnow h) authHeader xApiKey
          ≠ .unauthorized .revoked msg) :=
  ⟨fun tokens users now tokenHash info h =>
      dbValidateToken_ok_sound tokens users now tokenHash info h,
   fun tokens users now tokenHash hall =>
      dbValidateToken_unknown_error tokens users now tokenHash hall,
   fun cfg now ipRec tokRec hashToken validateJWT tokens users dbnow authHeader xApiKey msg =>
      authMiddleware_revoked_unreachable cfg now ipRec tokRec hashToken validateJWT
        tokens users dbnow authHeader xApiKey msg⟩

/-- Witness for C10: a concrete store with one revoked token returns the
error, by the theorem's second part. -/
theorem C10_validate_token_sound_witness :
    dbValidateToken
      [{ tokenHash := "h1", jti := "j1", userID := "u1", isRevoked := true,
         expiresAt := 1000 }]
      [{ iamUsername := "u1", email := "e", team := "t", person := "p", role := "r",
         isActive := true, monthlyQuotaUsd := 100, dailyLimitUsd := 10,
         dailyRequestLimit := 100, defaultInferenceProfile := "prof" }]
      5 "h1" = .error "token not found or invalid" :=
  C10_validate_token_sound.2.1
    [{ tokenHash := "h1", jti := "j1", userID := "u1", isRevoked := true,
       expiresAt := 1000 }]
    [{ iamUsername := "u1", email := "e", team := "t", person := "p", role := "r",
       isActive := true, monthlyQuotaUsd := 100, dailyLimitUsd := 10,
       dailyRequestLimit := 100, defaultInferenceProfile := "prof" }]
    5 "h1" (by
      intro tr htr _
      rw [List.mem_singleton.mp htr]
      left
      rfl)

end BedrockProxy
